import Mathlib

/-!
Verification development for the Noah.Genesis clinical-assistant chat backend.

The definitions below are a shallow embedding of the Python sources:
  * `backend/app/agent/graph.py`       — the LangGraph agent workflow
  * `backend/app/agent/tools.py`       — the knowledge-base retrieval tool
  * `backend/app/agent/memory.py`      — history loading / saving
  * `backend/app/services/rag_service.py`     — retrieval backend wrapper
  * `backend/app/services/llm_service.py`     — model-call wrapper
  * `backend/app/services/firestore_service.py` — document store access
  * `backend/app/api/v1/endpoints/chat.py`    — the chat request handler
  * `backend/app/agents/hippocrates_agent.py` — the Hippocrates sub-agent

Python `dict.get` with a default, truthiness of optional strings/lists, and
the write-time clock of the document store are modelled explicitly.  The long
LLM prompt templates are condensed to the fragments that the simulated model
call actually inspects (`"Note Type:"` and
`"Information Retrieved from Knowledge Base"`), together with the dynamic
pieces interpolated from the state; no other part of the prompts is read by
any code path.
-/

set_option maxRecDepth 100000

namespace Noah

/-- Python truthiness of an optional string: `None` and `""` are falsy. -/
def optTruthy (o : Option String) : Bool :=
  match o with
  | none => false
  | some s => s ≠ ""

/-- Python truthiness of an optional list: `None` and `[]` are falsy. -/
def optListTruthy {α : Type} (o : Option (List α)) : Bool :=
  match o with
  | none => false
  | some l => !l.isEmpty

/-- Python `a if a else b` on an optional string (falsy `None`/`""` fall back). -/
def pyOrElse (o : Option String) (d : String) : String :=
  match o with
  | none => d
  | some s => if s = "" then d else s

/-- Checks whether `pat` is a prefix of `l` (character-wise). -/
def prefixMatches : List Char → List Char → Bool
  | [], _ => true
  | _ :: _, [] => false
  | p :: ps, c :: cs => p == c && prefixMatches ps cs

/-- Checks whether `pat` occurs as a contiguous sublist of `l`
(Python `pat in s` on strings). -/
def charsContains (l pat : List Char) : Bool :=
  match l with
  | [] => pat.isEmpty
  | _ :: t => prefixMatches pat l || charsContains t pat

/-- Python substring test `pat in s`. -/
def strContains (s pat : String) : Bool :=
  charsContains s.toList pat.toList

/-- Python `s.lower()` (character-wise, as in the source\x27s ASCII usage). -/
def strToLower (s : String) : String :=
  ⟨s.data.map Char.toLower⟩

/-- Python `s.strip()`: drop leading and trailing whitespace. -/
def strTrim (s : String) : String :=
  ⟨((s.data.dropWhile Char.isWhitespace).reverse.dropWhile Char.isWhitespace).reverse⟩

/-- Lookup in an opaque key→value argument mapping with a default
(Python `d.get(k, default)`). -/
def lookupArg (args : List (String × String)) (key dflt : String) : String :=
  match args.find? (fun kv => kv.1 = key) with
  | some kv => kv.2
  | none => dflt

/-- A tool invocation generated by the model.  `id` is optional because the
Python dict may omit the key (`tool_call.get("id", "unknown_tool_call_id")`). -/
structure ToolCall where
  name : String
  args : List (String × String)
  id : Option String
deriving Repr, DecidableEq

/-- A tool execution record paired with its originating call. -/
structure ToolResponse where
  tool_call_id : String
  name : String
  content : String
deriving Repr, DecidableEq

/-- LangChain-style chat messages as used by the graph and memory modules. -/
inductive LCMessage where
  | human (content : String)
  | ai (content : String) (tool_calls : List ToolCall)
  | tool (content : String) (tool_call_id : String) (name : String)
deriving Repr, DecidableEq

/-- Embedding of `msg.type` of a LangChain message. -/
def LCMessage.msgType : LCMessage → String
  | .human _ => "human"
  | .ai _ _ => "ai"
  | .tool _ _ _ => "tool"

/-- Embedding of `msg.content` of a LangChain message. -/
def LCMessage.content : LCMessage → String
  | .human c => c
  | .ai c _ => c
  | .tool c _ _ => c

/-- The `AgentState` TypedDict of `backend/app/agent/graph.py`.  Every
optional key is an `Option`; a field holds `none` both for an absent key and
for a key explicitly set to Python `None` (the graph never distinguishes
the two). -/
structure AgentState where
  user_query : String
  conversation_history : List LCMessage
  conversation_history_string : String
  llm_reasoner_decision : Option String
  llm_reasoner_response_text : Option String
  tool_calls_generated : Option (List ToolCall)
  executed_tool_responses_for_history : Option (List ToolResponse)
  rag_context : Option String
  patient_data_log_summary_for_drafting : Option String
  draft_content : Option String
  final_response : Option String
deriving Repr, DecidableEq

/-- A fully-empty agent state, used to build concrete states in examples. -/
def blankState : AgentState where
  user_query := ""
  conversation_history := []
  conversation_history_string := ""
  llm_reasoner_decision := none
  llm_reasoner_response_text := none
  tool_calls_generated := none
  executed_tool_responses_for_history := none
  rag_context := none
  patient_data_log_summary_for_drafting := none
  draft_content := none
  final_response := none

/-- Output shape of the simulated LLM call
(`{"text": ..., "tool_calls": ...}`). -/
structure LlmSimOutput where
  text : Option String
  tool_calls : Option (List ToolCall)
deriving Repr, DecidableEq

/-- The argument bundle a graph node passes to `simulate_get_llm_response`.
Making the request explicit lets theorems speak about what a node sends to
the model (in particular the `tools_schema_for_llm` field). -/
structure LlmSimRequest where
  system_prompt_text : String
  history_plus_prompt_vertex_content : List String
  tools_schema_for_llm : Option (List String)
  decision_type : String
  tool_call_query : Option String
deriving Repr, DecidableEq

/-- Embedding of `_convert_lc_messages_to_sim_vertex_content` from `graph.py`, reduced to
the text of each produced content entry (the only part the simulator reads).
`AIMessage`s with falsy content produce no entry; the current prompt is
appended only when truthy. -/
def convert_lc_messages_to_sim_vertex_content
    (lc_messages : List LCMessage) (current_prompt_text : String) : List String :=
  let histPart := lc_messages.foldr
    (fun m acc =>
      match m with
      | .human c => c :: acc
      | .ai c _ => if c = "" then acc else c :: acc
      | .tool c _ _ => c :: acc)
    []
  if current_prompt_text = "" then histPart else histPart ++ [current_prompt_text]

/-- Embedding of `simulate_get_llm_response` from `graph.py`.  The draft branch inspects
the prompt for `"Note Type:"`; the final branch inspects it for
`"Information Retrieved from Knowledge Base"`; otherwise only the last
content entry (truncated to 50 characters) flows into the canned output. -/
def simulate_get_llm_response (r : LlmSimRequest) : LlmSimOutput :=
  let lastText := (r.history_plus_prompt_vertex_content.getLast?).getD ""
  if r.tools_schema_for_llm.isSome ∧ r.decision_type = "tool_call" then
    { text := none
      tool_calls := some [{ name := "retrieve_knowledge_base"
                            args := [("query", pyOrElse r.tool_call_query "Simulated knowledge query")]
                            id := some "simulated_tool_call_id_001" }] }
  else if r.decision_type = "draft_note_response" ∨ r.decision_type = "draft_handoff_response" then
    let simulated_draft_text :=
      if strContains r.system_prompt_text "Note Type:" then
        "DRAFT Nursing Note for Review (based on request: \x27" ++ lastText ++ "\x27):\n" ++
        "S: Simulated subjective details from conversation.\n" ++
        "O: Simulated objective details from conversation/logs.\n" ++
        "A: Simulated brief assessment.\n" ++
        "P: Simulated plan details."
      else
        "Simulated DRAFT content based on: " ++ lastText.take 50 ++ "..."
    { text := some simulated_draft_text, tool_calls := none }
  else
    let simulated_text :=
      if strContains r.system_prompt_text "Information Retrieved from Knowledge Base" then
        "Synthesized answer: " ++ lastText.take 50 ++ "... with RAG."
      else
        "Simulated LLM text response based on: " ++ lastText.take 50 ++ "..."
    { text := some simulated_text, tool_calls := none }

/-- Condensed note-drafting system prompt: the fragments inspected downstream
(`"Note Type:"` appears in the full template) plus the interpolated state. -/
def note_drafting_system_prompt (s : AgentState) : String :=
  "You are Noah.AI, drafting a brief nursing note.\n" ++
  "<conversation_history>\n" ++ s.conversation_history_string ++ "\n</conversation_history>\n" ++
  "<patient_data_log_summary>\n" ++
  (if optTruthy s.patient_data_log_summary_for_drafting then
      (s.patient_data_log_summary_for_drafting).getD ""
    else "No specific patient data log entries provided for this draft.") ++
  "\n</patient_data_log_summary>\n" ++
  "<user_request>\n" ++ s.user_query ++ "\n</user_request>\n" ++
  "Note Type: (e.g., Progress Note, SOAP Note)\n" ++
  "Frame the output clearly as a DRAFT nursing note for your review."

/-- Condensed handoff-report system prompt (the full template contains no
fragment inspected by the simulator). -/
def handoff_report_system_prompt (s : AgentState) : String :=
  "You are Noah.AI, drafting a brief handoff report.\n" ++
  "<conversation_history>\n" ++ s.conversation_history_string ++ "\n</conversation_history>\n" ++
  "<patient_data_log_summary>\n" ++
  (if optTruthy s.patient_data_log_summary_for_drafting then
      (s.patient_data_log_summary_for_drafting).getD ""
    else "No specific patient data log entries provided for this draft.") ++
  "\n</patient_data_log_summary>\n" ++
  "<user_request>\n" ++ s.user_query ++ "\n</user_request>\n" ++
  "Frame the output as a DRAFT handoff report for your review."

/-- The LLM request constructed by `note_drafting_node`
(`tools_schema_for_llm=None`, decision type `draft_note_response`). -/
def note_drafting_request (s : AgentState) : LlmSimRequest where
  system_prompt_text := note_drafting_system_prompt s
  history_plus_prompt_vertex_content :=
    convert_lc_messages_to_sim_vertex_content s.conversation_history s.user_query
  tools_schema_for_llm := none
  decision_type := "draft_note_response"
  tool_call_query := some "simulated query"

/-- Embedding of `note_drafting_node` from `graph.py`: calls the simulated model with no
tools, then (on any returned text) replaces it with the fixed DRAFT template;
sets both `draft_content` and `final_response`. -/
def note_drafting_node (s : AgentState) : AgentState :=
  let llm_output := simulate_get_llm_response (note_drafting_request s)
  let drafted_note_text :=
    match llm_output.text with
    | none => "Error: Could not draft note based on the provided information and session history."
    | some _ =>
      "DRAFT Nursing Note for Review (based on request: \x27" ++ s.user_query ++ "\x27):\n" ++
      "S: Information from conversation history: ...\n" ++
      "O: Objective details from history: ...\n" ++
      "A: Assessment based on history: ...\n" ++
      "P: Plan based on history: ...\n" ++
      "(Simulated draft using template for query: \x27" ++ s.user_query ++ "\x27)"
  { s with draft_content := some drafted_note_text
           final_response := some drafted_note_text }

/-- The LLM request constructed by `handoff_report_node`
(`tools_schema_for_llm=None`, decision type `draft_handoff_response`). -/
def handoff_report_request (s : AgentState) : LlmSimRequest where
  system_prompt_text := handoff_report_system_prompt s
  history_plus_prompt_vertex_content :=
    convert_lc_messages_to_sim_vertex_content s.conversation_history s.user_query
  tools_schema_for_llm := none
  decision_type := "draft_handoff_response"
  tool_call_query := some "simulated query"

/-- Embedding of `handoff_report_node` from `graph.py`. -/
def handoff_report_node (s : AgentState) : AgentState :=
  let llm_output := simulate_get_llm_response (handoff_report_request s)
  let drafted_handoff_text :=
    match llm_output.text with
    | none => "Error: Could not draft handoff report based on the provided information and session history."
    | some _ =>
      "DRAFT Handoff Report for Review (based on request: \x27" ++ s.user_query ++ "\x27):\n" ++
      "For Patient: ...\n" ++
      "Key Events: ... from conversation history ...\n" ++
      "Pending Tasks: ... from conversation history ...\n" ++
      "Critical Concerns: ... from conversation history ...\n" ++
      "(Simulated handoff report using template for query: \x27" ++ s.user_query ++ "\x27)"
  { s with draft_content := some drafted_handoff_text
           final_response := some drafted_handoff_text }

/-- Condensed reasoner system prompt (contains neither `"Note Type:"` nor
`"Information Retrieved from Knowledge Base"`, matching the full template). -/
def reasoner_system_prompt (s : AgentState) : String :=
  "You are Noah.AI, assisting the user with the provided context and tools.\n" ++
  "<conversation_history>\n" ++ s.conversation_history_string ++ "\n</conversation_history>\n" ++
  "<user_query>\n" ++ s.user_query ++ "\n</user_query>\n" ++
  "Available tool: retrieve_knowledge_base."

/-- Embedding of `llm_reasoner_node` from `graph.py`: derives the simulated decision from
keywords of the user query (draft checks take precedence over the
symptoms/protocol check), invokes the simulated model, and records the
decision, the generated tool calls, and/or the direct response text. -/
def llm_reasoner_node (s : AgentState) : AgentState :=
  let conversation_history_string :=
    String.intercalate "\n"
      (s.conversation_history.map (fun m => m.msgType.toUpper ++ ": " ++ m.content))
  let ql := strToLower s.user_query
  let sim_decision0 :=
    if strContains ql "symptoms" || strContains ql "protocol" then "tool_call"
    else "direct_response"
  let sim_decision :=
    if strContains ql "draft a handoff" || strContains ql "draft handoff" ||
        strContains ql "handoff report" then "draft_handoff"
    else if strContains ql "draft a note" || strContains ql "draft note" then "draft_note"
    else sim_decision0
  let sim_tool_query :=
    if sim_decision = "tool_call" then some ("info on " ++ s.user_query) else none
  let s' := { s with conversation_history_string := conversation_history_string }
  let llm_output := simulate_get_llm_response
    { system_prompt_text := reasoner_system_prompt s'
      history_plus_prompt_vertex_content :=
        convert_lc_messages_to_sim_vertex_content s.conversation_history s.user_query
      tools_schema_for_llm := some ["retrieve_knowledge_base"]
      decision_type := sim_decision
      tool_call_query := sim_tool_query }
  if sim_decision = "draft_note" then
    { s' with llm_reasoner_decision := some "draft_note"
              llm_reasoner_response_text := some "Okay, I will start drafting that note for you."
              tool_calls_generated := none }
  else if sim_decision = "draft_handoff" then
    { s' with llm_reasoner_decision := some "draft_handoff"
              llm_reasoner_response_text := some "Understood. I\x27ll begin drafting the handoff report."
              tool_calls_generated := none }
  else if optListTruthy llm_output.tool_calls then
    { s' with llm_reasoner_decision := some "tool_call"
              tool_calls_generated := llm_output.tool_calls
              llm_reasoner_response_text := none }
  else
    { s' with llm_reasoner_decision := some "direct_response"
              llm_reasoner_response_text := llm_output.text
              tool_calls_generated := none }

/-- The per-call loop of `tool_executor_node`: executes each call in input
order, appending exactly one `ToolResponse` per call (known tools get their
simulated output, unknown tools get an error-content response), while
threading the `rag_context` and `patient_data_log_summary_for_drafting`
values. -/
def executeToolCalls :
    List ToolCall → Option String → Option String →
    List ToolResponse × Option String × Option String
  | [], rag, patient => ([], rag, patient)
  | c :: cs, rag, patient =>
    let tool_call_id := c.id.getD "unknown_tool_call_id"
    if c.name = "retrieve_knowledge_base" then
      let query := lookupArg c.args "query" ""
      let simulated_rag_output :=
        "Simulated RAG context for query \x27" ++ query ++
        "\x27: Symptoms include sweating, confusion, and tremors. Source: Clinical Guideline XYZ."
      let rest := executeToolCalls cs (some simulated_rag_output) patient
      (⟨tool_call_id, c.name, simulated_rag_output⟩ :: rest.1, rest.2)
    else if c.name = "fetch_patient_data_log_summary" then
      let patient_id := lookupArg c.args "patient_id" "unknown_patient"
      let patient_summary_data :=
        "Simulated patient data log summary for " ++ patient_id ++
        ": Recent vitals stable. Glucose levels monitored. No acute events in last 4 hours."
      let rest := executeToolCalls cs rag (some patient_summary_data)
      (⟨tool_call_id, c.name, patient_summary_data⟩ :: rest.1, rest.2)
    else
      let rest := executeToolCalls cs rag patient
      (⟨tool_call_id, c.name,
        "Error: Tool \x27" ++ c.name ++ "\x27 not found or simulated."⟩ :: rest.1, rest.2)

/-- Embedding of `tool_executor_node` from `graph.py`.  With a falsy generated-call list
(`None` or `[]`) it returns `[]` responses and resets both `rag_context` and
`patient_data_log_summary_for_drafting` to `None`; otherwise it runs the
per-call loop seeded with the state\x27s current values. -/
def tool_executor_node (s : AgentState) : AgentState :=
  if !optListTruthy s.tool_calls_generated then
    { s with executed_tool_responses_for_history := some []
             rag_context := none
             patient_data_log_summary_for_drafting := none }
  else
    let calls := s.tool_calls_generated.getD []
    let result := executeToolCalls calls s.rag_context s.patient_data_log_summary_for_drafting
    { s with executed_tool_responses_for_history := some result.1
             rag_context := result.2.1
             patient_data_log_summary_for_drafting := result.2.2 }

/-- Condensed RAG-synthesis system prompt: contains the
`"Information Retrieved from Knowledge Base"` fragment (which the simulator
inspects) plus the interpolated state. -/
def rag_synthesis_system_prompt (s : AgentState) : String :=
  "You are Noah.AI.\n" ++
  "<user_query>\n" ++ s.user_query ++ "\n</user_query>\n" ++
  "<conversation_history>\n" ++ s.conversation_history_string ++ "\n</conversation_history>\n" ++
  "Information Retrieved from Knowledge Base (rag_context):\n" ++
  "<rag_context>\n" ++
  (s.rag_context).getD "No specific information was found in the knowledge base." ++
  "\n</rag_context>\n" ++
  "Synthesize a comprehensive answer grounded in rag_context."

/-- The LLM request constructed by `rag_synthesis_node` (no tools). -/
def rag_synthesis_request (s : AgentState) : LlmSimRequest where
  system_prompt_text := rag_synthesis_system_prompt s
  history_plus_prompt_vertex_content :=
    convert_lc_messages_to_sim_vertex_content s.conversation_history s.user_query
  tools_schema_for_llm := none
  decision_type := "synthesis_response"
  tool_call_query := some "simulated query"

/-- Embedding of `rag_synthesis_node` from `graph.py`: a dedicated post-tool node that
invokes the simulated model over the retrieved context and sets
`final_response` itself. -/
def rag_synthesis_node (s : AgentState) : AgentState :=
  let llm_output := simulate_get_llm_response (rag_synthesis_request s)
  let final_response_text := llm_output.text.getD "Error: Could not synthesize response."
  { s with final_response := some final_response_text }

/-- Embedding of `should_continue_to_tool_execution` from `graph.py`: the single
conditional fan-out after the reasoner.  Note that it routes on the decision
string and the presence of generated calls only — it never checks whether a
requested tool name is registered. -/
def should_continue_to_tool_execution (s : AgentState) : String :=
  if s.llm_reasoner_decision = some "tool_call" ∧ optListTruthy s.tool_calls_generated then
    "execute_tool"
  else if s.llm_reasoner_decision = some "draft_note" then "draft_note"
  else if s.llm_reasoner_decision = some "draft_handoff" then "draft_handoff"
  else "end_direct_response"

/-- Nodes of the compiled workflow of `build_agent_workflow`. -/
inductive GNode where
  | llm_reasoner
  | tool_executor
  | rag_synthesis
  | note_drafting
  | handoff_report
  | «END»
deriving Repr, DecidableEq

/-- The conditional-edge mapping attached to `llm_reasoner` in
`build_agent_workflow`. -/
def reasonerEdgeTarget (label : String) : Option GNode :=
  if label = "execute_tool" then some .tool_executor
  else if label = "draft_note" then some .note_drafting
  else if label = "draft_handoff" then some .handoff_report
  else if label = "end_direct_response" then some .«END»
  else none

/-- The unconditional edges of `build_agent_workflow`:
`tool_executor → rag_synthesis`, and `rag_synthesis`, `note_drafting`,
`handoff_report` each to `END`. -/
def staticEdgeTarget : GNode → Option GNode
  | .tool_executor => some .rag_synthesis
  | .rag_synthesis => some .«END»
  | .note_drafting => some .«END»
  | .handoff_report => some .«END»
  | _ => none

/-- Applies a node\x27s function to the state (the terminal pseudo-node is the
identity). -/
def applyNode : GNode → AgentState → AgentState
  | .llm_reasoner, s => llm_reasoner_node s
  | .tool_executor, s => tool_executor_node s
  | .rag_synthesis, s => rag_synthesis_node s
  | .note_drafting, s => note_drafting_node s
  | .handoff_report, s => handoff_report_node s
  | .«END», s => s

/-- Successor of a node, evaluated (for the conditional edge) on the state
produced by that node. -/
def nextNode (n : GNode) (s : AgentState) : Option GNode :=
  match n with
  | .llm_reasoner => reasonerEdgeTarget (should_continue_to_tool_execution s)
  | .«END» => none
  | n => staticEdgeTarget n

/-- LangGraph-style execution of the compiled workflow with a recursion
limit: `none` models `GraphRecursionError` (the fuel ran out, a fatal
exception for the turn) and also the impossible dangling-edge case; `some`
is the final state reached at `END`. -/
def runFrom : Nat → GNode → AgentState → Option AgentState
  | 0, _, _ => none
  | _ + 1, .«END», s => some s
  | fuel + 1, n, s =>
    let s' := applyNode n s
    match nextNode n s' with
    | some n' => runFrom fuel n' s'
    | none => none

/-- The graph input assembled by `run_agent_test` before `ainvoke`. -/
def initialAgentState (user_input : String) (initial_history : List LCMessage)
    (patient_data_summary_for_drafting : Option String) : AgentState :=
  { blankState with
      user_query := user_input
      conversation_history := initial_history
      patient_data_log_summary_for_drafting := patient_data_summary_for_drafting
      draft_content := none }

/-- The final graph state computed inside `run_agent_test`. -/
def run_agent_test_final_state (user_input : String) (initial_history : List LCMessage)
    (patient_summary : Option String) (fuel : Nat) : Option AgentState :=
  runFrom fuel .llm_reasoner (initialAgentState user_input initial_history patient_summary)

/-- The `response_to_user` selection chain of `run_agent_test`
(`graph.py` lines 597–615): `draft_content`, else `final_response`, else
`llm_reasoner_response_text`, else a fixed apology — each gate using Python
truthiness. -/
def response_to_user (final_state : AgentState) : String :=
  if optTruthy final_state.draft_content then final_state.draft_content.getD ""
  else if optTruthy final_state.final_response then final_state.final_response.getD ""
  else if optTruthy final_state.llm_reasoner_response_text then
    final_state.llm_reasoner_response_text.getD ""
  else "I\x27m sorry, I encountered an issue and couldn\x27t process your request."

/-! ## Exception-faithful graph execution

`simulate_get_llm_response` in `graph.py` reads
`history_plus_prompt_vertex_content[-1]["parts"][0]["text"]` unconditionally
in its drafting and direct/synthesis branches.  On an empty content list
(empty user query with no truthy history entry) Python raises `IndexError`,
and when the last entry is a function-response part (a trailing
`ToolMessage` with an empty current prompt) it raises `KeyError`, aborting
the turn.  The definitions above collapse that read to a default; the
`checked` variants below keep the exception, so theorems that quantify over
all turns are settled against the source\x27s real behaviour. -/

/-- Embedding of `_convert_lc_messages_to_sim_vertex_content` keeping, for
each produced content entry, whether its first part carries a `text` key
(`some text` for user/model parts, `none` for function-response parts). -/
def convert_lc_messages_to_sim_vertex_content_parts
    (lc_messages : List LCMessage) (current_prompt_text : String) : List (Option String) :=
  let histPart := lc_messages.foldr
    (fun m acc =>
      match m with
      | .human c => some c :: acc
      | .ai c _ => if c = "" then acc else some c :: acc
      | .tool _ _ _ => none :: acc)
    []
  if current_prompt_text = "" then histPart else histPart ++ [some current_prompt_text]

/-- The Python expression `contents[-1]["parts"][0]["text"]`: `IndexError`
on an empty list, `KeyError` when the last part has no text. -/
def lastContentText (contents : List (Option String)) : Except String String :=
  match contents.getLast? with
  | none => .error "IndexError: list index out of range"
  | some none => .error "KeyError: \x27text\x27"
  | some (some t) => .ok t

/-- An `simulate_get_llm_response` request carrying the per-part text
information needed to decide whether the `[-1]` read raises. -/
structure LlmSimRequestChecked where
  system_prompt_text : String
  history_plus_prompt_vertex_content : List (Option String)
  tools_schema_for_llm : Option (List String)
  decision_type : String
  tool_call_query : Option String
deriving Repr, DecidableEq

/-- Embedding of `simulate_get_llm_response` with the `[-1]` read made
explicit: the tool-call branch never touches the content list, while the
drafting and direct/synthesis branches raise exactly when Python would. -/
def simulate_get_llm_response_checked (r : LlmSimRequestChecked) :
    Except String LlmSimOutput :=
  if r.tools_schema_for_llm.isSome ∧ r.decision_type = "tool_call" then
    .ok { text := none
          tool_calls := some [{ name := "retrieve_knowledge_base"
                                args := [("query", pyOrElse r.tool_call_query "Simulated knowledge query")]
                                id := some "simulated_tool_call_id_001" }] }
  else if r.decision_type = "draft_note_response" ∨ r.decision_type = "draft_handoff_response" then
    match lastContentText r.history_plus_prompt_vertex_content with
    | .error e => .error e
    | .ok lastText =>
      let simulated_draft_text :=
        if strContains r.system_prompt_text "Note Type:" then
          "DRAFT Nursing Note for Review (based on request: \x27" ++ lastText ++ "\x27):\n" ++
          "S: Simulated subjective details from conversation.\n" ++
          "O: Simulated objective details from conversation/logs.\n" ++
          "A: Simulated brief assessment.\n" ++
          "P: Simulated plan details."
        else
          "Simulated DRAFT content based on: " ++ lastText.take 50 ++ "..."
      .ok { text := some simulated_draft_text, tool_calls := none }
  else
    match lastContentText r.history_plus_prompt_vertex_content with
    | .error e => .error e
    | .ok lastText =>
      let simulated_text :=
        if strContains r.system_prompt_text "Information Retrieved from Knowledge Base" then
          "Synthesized answer: " ++ lastText.take 50 ++ "... with RAG."
        else
          "Simulated LLM text response based on: " ++ lastText.take 50 ++ "..."
      .ok { text := some simulated_text, tool_calls := none }

/-- Exception-faithful `llm_reasoner_node`: identical to the collapsed
embedding except that the simulated model call may raise. -/
def llm_reasoner_node_checked (s : AgentState) : Except String AgentState :=
  let conversation_history_string :=
    String.intercalate "\n"
      (s.conversation_history.map (fun m => m.msgType.toUpper ++ ": " ++ m.content))
  let ql := strToLower s.user_query
  let sim_decision0 :=
    if strContains ql "symptoms" || strContains ql "protocol" then "tool_call"
    else "direct_response"
  let sim_decision :=
    if strContains ql "draft a handoff" || strContains ql "draft handoff" ||
        strContains ql "handoff report" then "draft_handoff"
    else if strContains ql "draft a note" || strContains ql "draft note" then "draft_note"
    else sim_decision0
  let sim_tool_query :=
    if sim_decision = "tool_call" then some ("info on " ++ s.user_query) else none
  let s' := { s with conversation_history_string := conversation_history_string }
  match simulate_get_llm_response_checked
    { system_prompt_text := reasoner_system_prompt s'
      history_plus_prompt_vertex_content :=
        convert_lc_messages_to_sim_vertex_content_parts s.conversation_history s.user_query
      tools_schema_for_llm := some ["retrieve_knowledge_base"]
      decision_type := sim_decision
      tool_call_query := sim_tool_query } with
  | .error e => .error e
  | .ok llm_output =>
    .ok (if sim_decision = "draft_note" then
      { s' with llm_reasoner_decision := some "draft_note"
                llm_reasoner_response_text := some "Okay, I will start drafting that note for you."
                tool_calls_generated := none }
    else if sim_decision = "draft_handoff" then
      { s' with llm_reasoner_decision := some "draft_handoff"
                llm_reasoner_response_text := some "Understood. I\x27ll begin drafting the handoff report."
                tool_calls_generated := none }
    else if optListTruthy llm_output.tool_calls then
      { s' with llm_reasoner_decision := some "tool_call"
                tool_calls_generated := llm_output.tool_calls
                llm_reasoner_response_text := none }
    else
      { s' with llm_reasoner_decision := some "direct_response"
                llm_reasoner_response_text := llm_output.text
                tool_calls_generated := none })

/-- Exception-faithful `rag_synthesis_node`. -/
def rag_synthesis_node_checked (s : AgentState) : Except String AgentState :=
  match simulate_get_llm_response_checked
    { system_prompt_text := rag_synthesis_system_prompt s
      history_plus_prompt_vertex_content :=
        convert_lc_messages_to_sim_vertex_content_parts s.conversation_history s.user_query
      tools_schema_for_llm := none
      decision_type := "synthesis_response"
      tool_call_query := some "simulated query" } with
  | .error e => .error e
  | .ok llm_output =>
    let final_response_text := llm_output.text.getD "Error: Could not synthesize response."
    .ok { s with final_response := some final_response_text }

/-- Exception-faithful `note_drafting_node`. -/
def note_drafting_node_checked (s : AgentState) : Except String AgentState :=
  match simulate_get_llm_response_checked
    { system_prompt_text := note_drafting_system_prompt s
      history_plus_prompt_vertex_content :=
        convert_lc_messages_to_sim_vertex_content_parts s.conversation_history s.user_query
      tools_schema_for_llm := none
      decision_type := "draft_note_response"
      tool_call_query := some "simulated query" } with
  | .error e => .error e
  | .ok llm_output =>
    let drafted_note_text :=
      match llm_output.text with
      | none => "Error: Could not draft note based on the provided information and session history."
      | some _ =>
        "DRAFT Nursing Note for Review (based on request: \x27" ++ s.user_query ++ "\x27):\n" ++
        "S: Information from conversation history: ...\n" ++
        "O: Objective details from history: ...\n" ++
        "A: Assessment based on history: ...\n" ++
        "P: Plan based on history: ...\n" ++
        "(Simulated draft using template for query: \x27" ++ s.user_query ++ "\x27)"
    .ok { s with draft_content := some drafted_note_text
                 final_response := some drafted_note_text }

/-- Exception-faithful `handoff_report_node`. -/
def handoff_report_node_checked (s : AgentState) : Except String AgentState :=
  match simulate_get_llm_response_checked
    { system_prompt_text := handoff_report_system_prompt s
      history_plus_prompt_vertex_content :=
        convert_lc_messages_to_sim_vertex_content_parts s.conversation_history s.user_query
      tools_schema_for_llm := none
      decision_type := "draft_handoff_response"
      tool_call_query := some "simulated query" } with
  | .error e => .error e
  | .ok llm_output =>
    let drafted_handoff_text :=
      match llm_output.text with
      | none => "Error: Could not draft handoff report based on the provided information and session history."
      | some _ =>
        "DRAFT Handoff Report for Review (based on request: \x27" ++ s.user_query ++ "\x27):\n" ++
        "For Patient: ...\n" ++
        "Key Events: ... from conversation history ...\n" ++
        "Pending Tasks: ... from conversation history ...\n" ++
        "Critical Concerns: ... from conversation history ...\n" ++
        "(Simulated handoff report using template for query: \x27" ++ s.user_query ++ "\x27)"
    .ok { s with draft_content := some drafted_handoff_text
                 final_response := some drafted_handoff_text }

/-- Outcome of a LangGraph invocation: a final state at `END`, a Python
exception raised by a node, or `GraphRecursionError` (recursion limit
exhausted). -/
inductive RunOutcome where
  | final (s : AgentState)
  | raised (e : String)
  | outOfFuel
deriving Repr, DecidableEq

/-- The final state of an outcome, when the run completed cleanly. -/
def RunOutcome.finalState? : RunOutcome → Option AgentState
  | .final s => some s
  | _ => none

/-- Exception-faithful node application.  `tool_executor_node` performs no
model call and only guarded dict reads, so it cannot raise. -/
def applyNodeChecked : GNode → AgentState → Except String AgentState
  | .llm_reasoner, s => llm_reasoner_node_checked s
  | .tool_executor, s => .ok (tool_executor_node s)
  | .rag_synthesis, s => rag_synthesis_node_checked s
  | .note_drafting, s => note_drafting_node_checked s
  | .handoff_report, s => handoff_report_node_checked s
  | .«END», s => .ok s

/-- Exception-faithful execution of the compiled workflow with a recursion
limit: a raising node aborts the turn with that exception. -/
def runFromChecked : Nat → GNode → AgentState → RunOutcome
  | 0, _, _ => .outOfFuel
  | _ + 1, .«END», s => .final s
  | fuel + 1, n, s =>
    match applyNodeChecked n s with
    | .error e => .raised e
    | .ok s' =>
      match nextNode n s' with
      | some n' => runFromChecked fuel n' s'
      | none => .raised "KeyError: unmapped edge label"

/-! ## Knowledge-base retrieval tool (`tools.py` + `rag_service.py`) -/

/-- A retrieved chunk as assembled by
`rag_service.retrieve_relevant_chunks`. -/
structure Chunk where
  id : String
  chunk_text : String
  source_document_name : String
  score : Int
deriving Repr, DecidableEq

/-- Behaviour of the Vertex AI vector-search call inside
`retrieve_relevant_chunks`: either it yields a (possibly empty) mapped chunk
list, or it raises, which the service\x27s own `except` turns into `[]`. -/
inductive RagBackend where
  | success (chunks : List Chunk)
  | failure (msg : String)
deriving Repr, DecidableEq

/-- Embedding of `rag_service.retrieve_relevant_chunks`: returns `[]` when the service is
uninitialized, when embedding the query fails, and — via its `except` clause
(lines 224–229) — when the vector-search backend raises; otherwise it
returns the mapped neighbor chunks. -/
def retrieve_relevant_chunks (initialized embeddingOk : Bool)
    (backend : RagBackend) : List Chunk :=
  if !initialized then []
  else if !embeddingOk then []
  else
    match backend with
    | .success chunks => chunks
    | .failure _ => []

/-- An element of the list the RAG tool returns: either a retrieved chunk or
a payload dict with a distinguished `error` key. -/
inductive KBItem where
  | chunk (c : Chunk)
  | errorPayload (msg : String)
deriving Repr, DecidableEq

/-- Whether a tool result contains an error-key payload. -/
def hasErrorPayload (items : List KBItem) : Bool :=
  items.any fun item =>
    match item with
    | .errorPayload _ => true
    | .chunk _ => false

/-- The `RAG_TOP_K` attribute of the repository\x27s `Settings` class:
`config.py` defines no `RAG_TOP_K` field and uses `extra="ignore"`, so
`settings.RAG_TOP_K` raises `AttributeError` — modelled as `none`. -/
def settings_RAG_TOP_K : Option Nat := none

/-- Embedding of `retrieve_knowledge_base_tool` from `tools.py`:
empty/whitespace queries short-circuit to the empty-query error payload.
Every other query first evaluates `settings.RAG_TOP_K` inside the tool\x27s
`try`; with the repository\x27s `Settings` (no such field) this raises
`AttributeError`, which the `except` clause wraps into the internal-error
payload — the RAG service is never reached.  Were `rag_top_k` configured,
the service result would be returned as-is (the explicit
`if not retrieved_chunks: return []` and the final
`return retrieved_chunks` coincide, and `retrieve_relevant_chunks` catches
backend failures internally, so no further exception reaches the tool). -/
def retrieve_knowledge_base_tool (rag_top_k : Option Nat)
    (initialized embeddingOk : Bool)
    (backend : RagBackend) (query : String) : List KBItem :=
  if query = "" ∨ strTrim query = "" then
    [.errorPayload "Query cannot be empty for knowledge base search."]
  else
    match rag_top_k with
    | none =>
      [.errorPayload
        "Failed to retrieve information from knowledge base due to an internal error: \x27Settings\x27 object has no attribute \x27RAG_TOP_K\x27"]
    | some _ =>
      (retrieve_relevant_chunks initialized embeddingOk backend).map .chunk

/-! ## LLM service and chat endpoint (`llm_service.py` + `chat.py`) -/

/-- Role tags of the Vertex AI content entries produced by
`_convert_lc_messages_to_vertex_content`. -/
inductive VRole where
  | user
  | model
  | function
deriving Repr, DecidableEq

/-- Embedding of `_convert_lc_messages_to_vertex_content` from `llm_service.py`, reduced
to the produced roles: an `AIMessage` yields an entry only when it has truthy
text content or tool calls; the current prompt is appended only when
truthy. -/
def convert_lc_messages_to_vertex_content
    (lc_messages : List LCMessage) (current_prompt : String) : List VRole :=
  let histPart := lc_messages.foldr
    (fun m acc =>
      match m with
      | .human _ => VRole.user :: acc
      | .ai c tcs => if strTrim c ≠ "" ∨ tcs ≠ [] then VRole.model :: acc else acc
      | .tool _ _ _ => VRole.function :: acc)
    []
  if current_prompt = "" then histPart else histPart ++ [VRole.user]

/-- Outcome of the underlying Vertex AI generate call inside
`get_llm_response`.  `success parts hasFunctionCall` carries the `text`
values of the first candidate\x27s parts (truthy ones are collected) and
whether any part was a function call; the remaining constructors are the
caught exception classes. -/
inductive LlmOutcome where
  | success (parts : List String) (hasFunctionCall : Bool)
  | blocked
  | retryFailure (e : String)
  | invalidArgument (e : String)
  | permissionDenied
  | unexpected (excTypeName : String)
deriving Repr, DecidableEq

/-- Embedding of `get_llm_response` from `llm_service.py`: its documented contract is
"Returns an empty string or error message on failure".  An empty content
list, a function-call-only candidate, and a candidate with no parsable text
all return `""`; every caught exception returns an `"Error: ..."` string. -/
def get_llm_response (initialized : Bool) (conversation_history : List LCMessage)
    (prompt : String) (outcome : LlmOutcome) : String :=
  if !initialized then "Error: LLM service not available (Vertex AI not initialized)."
  else if convert_lc_messages_to_vertex_content conversation_history prompt = [] then ""
  else
    match outcome with
    | .blocked => "Error: LLM response was blocked or empty."
    | .success parts hasFunctionCall =>
      let all_text_parts := parts.filter (fun t => t ≠ "")
      if all_text_parts ≠ [] then String.join all_text_parts
      else if hasFunctionCall then ""
      else ""
    | .retryFailure e => "Error: LLM call failed after retries (" ++ e ++ ")."
    | .invalidArgument e =>
      "Error: LLM request was invalid (" ++ e ++ "). Check model name and parameters."
    | .permissionDenied =>
      "Error: Permission denied for LLM service. Check service account permissions for Vertex AI."
    | .unexpected excTypeName =>
      "Error: An unexpected error occurred with the LLM service (" ++ excTypeName ++ ")."

/-! ## Hippocrates agent (`hippocrates_agent.py`) -/

/-- The Hippocrates agent state (the fields the linear graph threads). -/
structure HippocratesState where
  user_query : String
  research_question : String
  search_results : List (String × String × String)
  analysis_summary : String
  final_response : String
  error_message : Option String
deriving Repr, DecidableEq

/-- Embedding of `medical_literature_search_tool`: always returns two mock results. -/
def medical_literature_search_tool (search_query : String) :
    List (String × String × String) :=
  [("Mock Study 1 on " ++ search_query, "This is a mock summary.", "http://example.com/study1"),
   ("Mock Review 2 of " ++ search_query, "Another mock summary.", "http://example.com/review2")]

/-- Embedding of `start_research_node`. -/
def start_research_node (s : HippocratesState) : HippocratesState :=
  { s with research_question := s.user_query, error_message := none }

/-- Embedding of `conduct_medical_search_node` (the placeholder tool cannot raise, so the
`except` branch is unreachable). -/
def conduct_medical_search_node (s : HippocratesState) : HippocratesState :=
  let search_query := if s.research_question = "" then s.user_query else s.research_question
  { s with search_results := medical_literature_search_tool search_query }

/-- Embedding of `analyze_search_results_node`. -/
def analyze_search_results_node (s : HippocratesState) : HippocratesState :=
  if s.error_message.isSome then s
  else if s.search_results = [] then { s with analysis_summary := "No search results to analyze." }
  else
    { s with analysis_summary :=
        String.intercalate "\n" (s.search_results.map (fun r => r.2.1)) }

/-- Embedding of `synthesize_response_node`. -/
def synthesize_response_node (s : HippocratesState) : HippocratesState :=
  match s.error_message with
  | some e => { s with final_response := "Sorry, an error occurred: " ++ e }
  | none =>
    if s.search_results = [] then
      { s with final_response :=
          "I couldn\x27t find relevant medical literature for your query at the moment." }
    else
      { s with final_response :=
          "Based on my research on \x27" ++ s.user_query ++ "\x27:\n" ++ s.analysis_summary ++
          "\n\n(Note: This is a simplified response from the Hippocrates Agent MVP. Tools are placeholders.)" }

/-- The final state of the four-node linear Hippocrates graph on the given
initial state (the graph runs well within its configured `recursion_limit`
of 10). -/
def hippocrates_final_state (user_query : String) : HippocratesState :=
  synthesize_response_node (analyze_search_results_node
    (conduct_medical_search_node (start_research_node
      { user_query := user_query, research_question := "", search_results := []
        analysis_summary := "", final_response := "", error_message := none })))

/-- Embedding of `invoke_hippocrates_agent`: runs the graph and selects `final_response`,
else `error_message`, else a fixed issue message. -/
def invoke_hippocrates_agent (user_query : String) : String :=
  let final_state := hippocrates_final_state user_query
  if final_state.final_response ≠ "" then final_state.final_response
  else
    match final_state.error_message with
    | some e => e
    | none => "Hippocrates Agent encountered an issue and could not provide a response."

/-! ## Chat endpoint persistence and response (`chat.py` + `firestore_service.py`) -/

/-- Embedding of `InteractionActor` from `firestore_models.py`. -/
inductive InteractionActor where
  | USER
  | AGENT
deriving Repr, DecidableEq

/-- A record written by `create_interaction_history_entry`; `timestamp` is
assigned by the service at write time (`utcnow()`). -/
structure PersistedRecord where
  actor : InteractionActor
  timestamp : Nat
  message_content : String
deriving Repr, DecidableEq

/-- The field names `ChatRequest` actually declares (`api_models.py`
lines 14–17).  `mode` is not among them, so `request.mode` raises
`AttributeError` on every request. -/
def ChatRequest_fields : List String :=
  ["user_query_text", "user_voice_input_bytes", "session_id"]

/-- Embedding of `handle_chat_message` from `chat.py` as the source actually
executes: it saves the USER message (step 1, a failure is logged and
swallowed) and loads history (step 2, a failure yields `[]` — the loaded
value is never consumed), then step 3 unconditionally evaluates
`request.mode`.  `ChatRequest` defines no `mode` field, so pydantic raises
`AttributeError` there, outside any `try`: the turn aborts before any model
call, before any AGENT write, and before any `ChatResponse` is produced
(the default-mode and hippocrates branches below line 64 are dead code).
The result pairs the records written with the outcome: always the
`AttributeError`, never a response text. -/
def handle_chat_message (userSaveFails : Bool) (clock : Nat → Nat)
    (user_query_text : String) : List PersistedRecord × Except String String :=
  let userRecs : List PersistedRecord :=
    if userSaveFails then []
    else [{ actor := .USER, timestamp := clock 0, message_content := user_query_text }]
  (userRecs, .error "AttributeError: \x27ChatRequest\x27 object has no attribute \x27mode\x27")

/-! ## History loading (`memory.py` + `firestore_service.py`) -/

/-- An `InteractionHistory` document as stored in Firestore. -/
structure InteractionDoc where
  session_id : String
  user_id : String
  actor : InteractionActor
  message_content : String
  tool_calls : Option (List ToolCall)
  tool_responses : Option (List ToolResponse)
  timestamp : Nat
deriving Repr, DecidableEq

/-- Newest-first order on documents (Firestore `order_by="timestamp",
direction=DESCENDING`). -/
def newestFirst (a b : InteractionDoc) : Bool :=
  b.timestamp ≤ a.timestamp

/-- Embedding of `list_interaction_history_for_session` from `firestore_service.py`,
specialized to `order_by="timestamp"`: filter the collection by session,
order by timestamp (descending here, as `memory.py` requests), and apply the
limit. -/
def list_interaction_history_for_session (store : List InteractionDoc)
    (session_id : String) (limit : Nat) (descending : Bool) : List InteractionDoc :=
  let q := store.filter (fun d => d.session_id = session_id)
  let ordered :=
    if descending then q.mergeSort newestFirst
    else q.mergeSort (fun a b => a.timestamp ≤ b.timestamp)
  ordered.take limit

/-- The message list one document expands to in `load_session_history`:
USER documents become one `HumanMessage`; AGENT documents become one
`AIMessage` (carrying any tool calls) followed by one `ToolMessage` per
stored tool response. -/
def convertEntry (d : InteractionDoc) : List LCMessage :=
  match d.actor with
  | .USER => [.human d.message_content]
  | .AGENT =>
    let lc_tool_calls := (d.tool_calls).getD []
    LCMessage.ai d.message_content lc_tool_calls ::
      ((d.tool_responses).getD []).map (fun tr => .tool tr.content tr.tool_call_id tr.name)

/-- The documents `load_session_history` actually uses, in the order it uses
them: the newest-`limit` documents of the session, reversed to chronological
order. -/
def sessionDocsUsed (store : List InteractionDoc) (session_id : String)
    (limit : Nat) : List InteractionDoc :=
  (list_interaction_history_for_session store session_id limit true).reverse

/-- Embedding of `load_session_history` from `memory.py`: query newest-first with the
limit, reverse to oldest-first, and convert each document to LangChain
messages. -/
def load_session_history (store : List InteractionDoc) (session_id : String)
    (limit : Nat) : List LCMessage :=
  (sessionDocsUsed store session_id limit).flatMap convertEntry

/-! ## Shared lemmas -/

/-- A string append is nonempty when its left factor is. -/
theorem str_append_ne_empty (a b : String) (h : a ≠ "") : a ++ b ≠ "" := by
  intro hc
  apply h
  have hdata : (a ++ b).data = ("" : String).data := by rw [hc]
  rw [String.data_append] at hdata
  have : a.data = [] := List.append_eq_nil.mp hdata |>.1
  cases a
  simp_all

/-- A truthy optional string extracts to a nonempty string. -/
theorem optTruthy_getD_ne_empty (o : Option String) (h : optTruthy o = true) :
    o.getD "" ≠ "" := by
  cases o with
  | none => simp [optTruthy] at h
  | some s => simpa [optTruthy] using h

/-- One `runFrom` step at the terminal node returns the state. -/
theorem runFrom_end (f : Nat) (s : AgentState) :
    runFrom (f + 1) GNode.«END» s = some s := rfl

/-- Embedding of `runFrom` reports the recursion-limit error when the fuel is exhausted,
never a truncated state. -/
theorem runFrom_zero (n : GNode) (s : AgentState) : runFrom 0 n s = none := rfl

/-- Running from `rag_synthesis` applies the node and terminates. -/
theorem runFrom_rag_synthesis (f : Nat) (s : AgentState) :
    runFrom (f + 1 + 1) GNode.rag_synthesis s = some (rag_synthesis_node s) := rfl

/-- Running from `note_drafting` applies the node and terminates. -/
theorem runFrom_note_drafting (f : Nat) (s : AgentState) :
    runFrom (f + 1 + 1) GNode.note_drafting s = some (note_drafting_node s) := rfl

/-- Running from `handoff_report` applies the node and terminates. -/
theorem runFrom_handoff_report (f : Nat) (s : AgentState) :
    runFrom (f + 1 + 1) GNode.handoff_report s = some (handoff_report_node s) := rfl

/-- Running from `tool_executor` executes the tools, synthesizes, and
terminates. -/
theorem runFrom_tool_executor (f : Nat) (s : AgentState) :
    runFrom (f + 1 + 1 + 1) GNode.tool_executor s =
      some (rag_synthesis_node (tool_executor_node s)) := rfl

/-- The conditional fan-out always returns one of its four labels. -/
theorem should_continue_cases (s : AgentState) :
    should_continue_to_tool_execution s = "execute_tool" ∨
    should_continue_to_tool_execution s = "draft_note" ∨
    should_continue_to_tool_execution s = "draft_handoff" ∨
    should_continue_to_tool_execution s = "end_direct_response" := by
  unfold should_continue_to_tool_execution
  split_ifs <;> simp

/-- Any run from the entry node reaches `END` within four node steps. -/
theorem runFrom_reasoner_isSome (f : Nat) (s : AgentState) :
    (runFrom (f + 1 + 1 + 1 + 1) GNode.llm_reasoner s).isSome = true := by
  have hstep : runFrom (f + 1 + 1 + 1 + 1) GNode.llm_reasoner s =
      match reasonerEdgeTarget (should_continue_to_tool_execution (llm_reasoner_node s)) with
      | some n' => runFrom (f + 1 + 1 + 1) n' (llm_reasoner_node s)
      | none => none := rfl
  rcases should_continue_cases (llm_reasoner_node s) with h | h | h | h <;>
    rw [hstep, h] <;>
    simp [reasonerEdgeTarget, runFrom_tool_executor, runFrom_note_drafting,
      runFrom_handoff_report, runFrom_end]

/-- The executor loop leaves `rag_context` unchanged when no call names the
knowledge-base tool. -/
theorem executeToolCalls_rag_frame (calls : List ToolCall) (rag patient : Option String)
    (h : ∀ c ∈ calls, c.name ≠ "retrieve_knowledge_base") :
    (executeToolCalls calls rag patient).2.1 = rag := by
  induction calls generalizing rag patient with
  | nil => rfl
  | cons c cs ih =>
    have hc : c.name ≠ "retrieve_knowledge_base" := h c (by simp)
    have hcs : ∀ x ∈ cs, x.name ≠ "retrieve_knowledge_base" := fun x hx => h x (by simp [hx])
    by_cases h2 : c.name = "fetch_patient_data_log_summary"
    · simp [executeToolCalls, hc, h2, ih _ _ hcs]
    · simp [executeToolCalls, hc, h2, ih _ _ hcs]

/-- The executor loop leaves the patient-data summary unchanged when no call
names the patient-data fetch tool. -/
theorem executeToolCalls_patient_frame (calls : List ToolCall) (rag patient : Option String)
    (h : ∀ c ∈ calls, c.name ≠ "fetch_patient_data_log_summary") :
    (executeToolCalls calls rag patient).2.2 = patient := by
  induction calls generalizing rag patient with
  | nil => rfl
  | cons c cs ih =>
    have hc : c.name ≠ "fetch_patient_data_log_summary" := h c (by simp)
    have hcs : ∀ x ∈ cs, x.name ≠ "fetch_patient_data_log_summary" := fun x hx => h x (by simp [hx])
    by_cases h1 : c.name = "retrieve_knowledge_base"
    · simp [executeToolCalls, h1, ih _ _ hcs]
    · simp [executeToolCalls, h1, hc, ih _ _ hcs]

/-- A list of mapped chunks never contains an error payload. -/
theorem hasErrorPayload_map_chunk (l : List Chunk) :
    hasErrorPayload (l.map KBItem.chunk) = false := by
  induction l with
  | nil => rfl
  | cons c cs ih => simp [hasErrorPayload, List.any_map]

/-- The Hippocrates graph always ends with the research-based response (the
mock search always finds two results and no node sets an error). -/
theorem hippocrates_final_response (q : String) :
    (hippocrates_final_state q).final_response =
      "Based on my research on \x27" ++ q ++ "\x27:\n" ++
        "This is a mock summary.\nAnother mock summary." ++
        "\n\n(Note: This is a simplified response from the Hippocrates Agent MVP. Tools are placeholders.)" ∧
    (hippocrates_final_state q).error_message = none := by
  by_cases hq : q = ""
  · subst hq
    exact ⟨rfl, rfl⟩
  · constructor <;>
      simp [hippocrates_final_state, start_research_node, conduct_medical_search_node,
        analyze_search_results_node, synthesize_response_node,
        medical_literature_search_tool, hq, String.intercalate, String.intercalate.go]

/-- The Hippocrates agent never returns an empty response text. -/
theorem invoke_hippocrates_ne_empty (q : String) : invoke_hippocrates_agent q ≠ "" := by
  obtain ⟨hfr, _⟩ := hippocrates_final_response q
  have hne : (hippocrates_final_state q).final_response ≠ "" := by
    rw [hfr]
    apply str_append_ne_empty
    apply str_append_ne_empty
    apply str_append_ne_empty
    apply str_append_ne_empty
    decide
  simp [invoke_hippocrates_agent, hne]

/-- Embedding of `newestFirst` is transitive. -/
theorem newestFirst_trans (a b c : InteractionDoc) :
    newestFirst a b = true → newestFirst b c = true → newestFirst a c = true := by
  simp [newestFirst]
  omega

/-- Embedding of `newestFirst` is total. -/
theorem newestFirst_total (a b : InteractionDoc) :
    (newestFirst a b || newestFirst b a) = true := by
  simp [newestFirst]
  omega

/-- The session query result is sorted newest-first. -/
theorem session_query_sorted (store : List InteractionDoc) (sid : String) :
    List.Pairwise (fun a b => newestFirst a b = true)
      ((store.filter (fun d => d.session_id = sid)).mergeSort newestFirst) :=
  List.sorted_mergeSort newestFirst_trans newestFirst_total _

/-- The documents used by `load_session_history` are the reversed
newest-`limit` of the sorted session query. -/
theorem sessionDocsUsed_eq (store : List InteractionDoc) (sid : String) (limit : Nat) :
    sessionDocsUsed store sid limit =
      (((store.filter (fun d => d.session_id = sid)).mergeSort newestFirst).take limit).reverse := by
  simp [sessionDocsUsed, list_interaction_history_for_session]

/-- With a truthy current prompt, the parts content list ends with the
prompt\x27s text-bearing entry. -/
theorem convert_parts_getLast (lc : List LCMessage) (q : String) (hq : q ≠ "") :
    (convert_lc_messages_to_sim_vertex_content_parts lc q).getLast? = some (some q) := by
  simp [convert_lc_messages_to_sim_vertex_content_parts, hq]

/-- With a truthy current prompt, the collapsed content list ends with the
prompt. -/
theorem convert_texts_getLast (lc : List LCMessage) (q : String) (hq : q ≠ "") :
    (convert_lc_messages_to_sim_vertex_content lc q).getLast? = some q := by
  simp [convert_lc_messages_to_sim_vertex_content, hq]

/-- On any request whose current prompt is truthy, the exception-faithful
simulator succeeds and agrees with the collapsed one: the `[-1]` read hits
the prompt entry, which carries text. -/
theorem sim_checked_agrees (q : String) (hq : q ≠ "") (sys : String) (lc : List LCMessage)
    (tools : Option (List String)) (dt : String) (tcq : Option String) :
    simulate_get_llm_response_checked
        { system_prompt_text := sys
          history_plus_prompt_vertex_content :=
            convert_lc_messages_to_sim_vertex_content_parts lc q
          tools_schema_for_llm := tools
          decision_type := dt
          tool_call_query := tcq } =
      Except.ok (simulate_get_llm_response
        { system_prompt_text := sys
          history_plus_prompt_vertex_content :=
            convert_lc_messages_to_sim_vertex_content lc q
          tools_schema_for_llm := tools
          decision_type := dt
          tool_call_query := tcq }) := by
  have hp := convert_parts_getLast lc q hq
  have ht := convert_texts_getLast lc q hq
  simp only [simulate_get_llm_response_checked, simulate_get_llm_response, lastContentText,
    hp, ht, Option.getD_some]
  split_ifs <;> rfl

/-- On a truthy user query the exception-faithful reasoner agrees with the
collapsed one. -/
theorem llm_reasoner_checked_agrees (s : AgentState) (hq : s.user_query ≠ "") :
    llm_reasoner_node_checked s = .ok (llm_reasoner_node s) := by
  simp only [llm_reasoner_node_checked, llm_reasoner_node]
  rw [sim_checked_agrees s.user_query hq]

/-- On a truthy user query the exception-faithful synthesis node agrees
with the collapsed one. -/
theorem rag_synthesis_checked_agrees (s : AgentState) (hq : s.user_query ≠ "") :
    rag_synthesis_node_checked s = .ok (rag_synthesis_node s) := by
  simp only [rag_synthesis_node_checked, rag_synthesis_node, rag_synthesis_request]
  rw [sim_checked_agrees s.user_query hq]

/-- On a truthy user query the exception-faithful note-drafting node agrees
with the collapsed one. -/
theorem note_drafting_checked_agrees (s : AgentState) (hq : s.user_query ≠ "") :
    note_drafting_node_checked s = .ok (note_drafting_node s) := by
  simp only [note_drafting_node_checked, note_drafting_node, note_drafting_request]
  rw [sim_checked_agrees s.user_query hq]

/-- On a truthy user query the exception-faithful handoff node agrees with
the collapsed one. -/
theorem handoff_report_checked_agrees (s : AgentState) (hq : s.user_query ≠ "") :
    handoff_report_node_checked s = .ok (handoff_report_node s) := by
  simp only [handoff_report_node_checked, handoff_report_node, handoff_report_request]
  rw [sim_checked_agrees s.user_query hq]

/-- The reasoner never changes the user query. -/
theorem llm_reasoner_node_user_query (s : AgentState) :
    (llm_reasoner_node s).user_query = s.user_query := by
  simp only [llm_reasoner_node]
  split_ifs <;> rfl

/-- The tool executor never changes the user query. -/
theorem tool_executor_node_user_query (s : AgentState) :
    (tool_executor_node s).user_query = s.user_query := by
  simp only [tool_executor_node]
  split_ifs <;> rfl

/-- One checked step at the terminal node returns the state. -/
theorem runChecked_end (f : Nat) (s : AgentState) :
    runFromChecked (f + 1) GNode.«END» s = .final s := rfl

/-- An exhausted recursion limit is the distinguished fatal outcome. -/
theorem runChecked_zero (n : GNode) (s : AgentState) :
    runFromChecked 0 n s = .outOfFuel := rfl

/-- One checked step from `rag_synthesis`: either the node raises and the
turn aborts with that exception, or the run finishes at `END`. -/
theorem runChecked_synthesis_step (f : Nat) (s : AgentState) :
    runFromChecked (f + 1 + 1) GNode.rag_synthesis s =
      (match rag_synthesis_node_checked s with
        | .error e => .raised e
        | .ok s' => .final s') := by
  cases h : rag_synthesis_node_checked s with
  | error e => simp [runFromChecked, applyNodeChecked, h]
  | ok s' => simp [runFromChecked, applyNodeChecked, h, nextNode, staticEdgeTarget]

/-- One checked step from `note_drafting`. -/
theorem runChecked_note_step (f : Nat) (s : AgentState) :
    runFromChecked (f + 1 + 1) GNode.note_drafting s =
      (match note_drafting_node_checked s with
        | .error e => .raised e
        | .ok s' => .final s') := by
  cases h : note_drafting_node_checked s with
  | error e => simp [runFromChecked, applyNodeChecked, h]
  | ok s' => simp [runFromChecked, applyNodeChecked, h, nextNode, staticEdgeTarget]

/-- One checked step from `handoff_report`. -/
theorem runChecked_handoff_step (f : Nat) (s : AgentState) :
    runFromChecked (f + 1 + 1) GNode.handoff_report s =
      (match handoff_report_node_checked s with
        | .error e => .raised e
        | .ok s' => .final s') := by
  cases h : handoff_report_node_checked s with
  | error e => simp [runFromChecked, applyNodeChecked, h]
  | ok s' => simp [runFromChecked, applyNodeChecked, h, nextNode, staticEdgeTarget]

/-- Checked run from `tool_executor`: the executor itself cannot raise, so
the outcome is decided by the synthesis node. -/
theorem runChecked_toolexec_step (f : Nat) (s : AgentState) :
    runFromChecked (f + 1 + 1 + 1) GNode.tool_executor s =
      (match rag_synthesis_node_checked (tool_executor_node s) with
        | .error e => .raised e
        | .ok s' => .final s') := by
  have h2 := runChecked_synthesis_step f (tool_executor_node s)
  have hstep : runFromChecked (f + 1 + 1 + 1) GNode.tool_executor s =
      runFromChecked (f + 1 + 1) GNode.rag_synthesis (tool_executor_node s) := rfl
  rw [hstep, h2]

/-- The checked run from the entry node never exhausts the recursion
limit: whatever the nodes do — finish or raise — the turn is over within
four steps. -/
theorem runChecked_reasoner_not_oof (f : Nat) (s : AgentState) :
    runFromChecked (f + 1 + 1 + 1 + 1) GNode.llm_reasoner s ≠ .outOfFuel := by
  have hstep : runFromChecked (f + 1 + 1 + 1 + 1) GNode.llm_reasoner s =
      (match llm_reasoner_node_checked s with
        | .error e => .raised e
        | .ok s1 =>
          match nextNode GNode.llm_reasoner s1 with
          | some n' => runFromChecked (f + 1 + 1 + 1) n' s1
          | none => .raised "KeyError: unmapped edge label") := rfl
  rw [hstep]
  cases hnode : llm_reasoner_node_checked s with
  | error e => simp
  | ok s1 =>
    rcases should_continue_cases s1 with h | h | h | h <;>
      simp only [nextNode, reasonerEdgeTarget, h] <;> simp <;>
      first
        | (rw [runChecked_toolexec_step]
           cases rag_synthesis_node_checked (tool_executor_node s1) <;> simp)
        | (rw [runChecked_note_step]
           cases note_drafting_node_checked s1 <;> simp)
        | (rw [runChecked_handoff_step]
           cases handoff_report_node_checked s1 <;> simp)
        | (rw [runChecked_end]; simp)

/-- On a truthy user query the checked run from the entry node completes
cleanly at `END`. -/
theorem runChecked_reasoner_final (f : Nat) (s : AgentState) (hq : s.user_query ≠ "") :
    (runFromChecked (f + 1 + 1 + 1 + 1) GNode.llm_reasoner s).finalState?.isSome = true := by
  have hstep : runFromChecked (f + 1 + 1 + 1 + 1) GNode.llm_reasoner s =
      (match llm_reasoner_node_checked s with
        | .error e => .raised e
        | .ok s1 =>
          match nextNode GNode.llm_reasoner s1 with
          | some n' => runFromChecked (f + 1 + 1 + 1) n' s1
          | none => .raised "KeyError: unmapped edge label") := rfl
  have hq1 : (llm_reasoner_node s).user_query ≠ "" := by
    rw [llm_reasoner_node_user_query]; exact hq
  have hq2 : (tool_executor_node (llm_reasoner_node s)).user_query ≠ "" := by
    rw [tool_executor_node_user_query]; exact hq1
  rw [hstep, llm_reasoner_checked_agrees s hq]
  rcases should_continue_cases (llm_reasoner_node s) with h | h | h | h <;>
    simp only [nextNode, reasonerEdgeTarget, h] <;> simp
  · rw [runChecked_toolexec_step, rag_synthesis_checked_agrees _ hq2]
    simp [RunOutcome.finalState?]
  · rw [runChecked_note_step, note_drafting_checked_agrees _ hq1]
    simp [RunOutcome.finalState?]
  · rw [runChecked_handoff_step, handoff_report_checked_agrees _ hq1]
    simp [RunOutcome.finalState?]
  · rw [runChecked_end]
    simp [RunOutcome.finalState?]

end Noah

namespace Noah

/-! ## Claim theorems -/

/-- C1 (counterexample): in `build_agent_workflow` the successor of the tool
executor is the dedicated `rag_synthesis` node, not the reasoner — there is
no `EXECUTE_TOOL → REASON` feedback loop — and on the concrete tool-path run
for "What are the symptoms of hypoglycemia?" the final text is the synthesis
node\x27s output while the last reasoner invocation produced no
`DirectAnswer` at all (`llm_reasoner_response_text` is `None`). -/
theorem C1_counterexample_no_loop_back :
    staticEdgeTarget GNode.tool_executor = some GNode.rag_synthesis ∧
    some GNode.rag_synthesis ≠ some GNode.llm_reasoner ∧
    (run_agent_test_final_state "What are the symptoms of hypoglycemia?" [] none 10).map
        (fun s => s.final_response) =
      some (some "Synthesized answer: What are the symptoms of hypoglycemia?... with RAG.") ∧
    (run_agent_test_final_state "What are the symptoms of hypoglycemia?" [] none 10).map
        (fun s => s.llm_reasoner_response_text) = some none := by
  refine ⟨rfl, by decide, by decide, by decide⟩

/-- C1 (amended): after `EXECUTE_TOOL` the workflow always transitions to
the separate post-tool `rag_synthesis` node (never back to the reasoner);
that node itself sets the turn\x27s final text by a fresh synthesis model
call, leaving the reasoner\x27s output untouched. -/
theorem C1_amended_tool_path_to_synthesis :
    ∀ s : AgentState,
      nextNode GNode.tool_executor s = some GNode.rag_synthesis ∧
      (rag_synthesis_node s).final_response.isSome = true ∧
      (rag_synthesis_node s).llm_reasoner_response_text = s.llm_reasoner_response_text := by
  intro s
  refine ⟨rfl, ?_, rfl⟩
  simp [rag_synthesis_node]

/-- C4 (counterexample): a reasoner output requesting the unregistered tool
`bogus_tool` is routed by `should_continue_to_tool_execution` to the tool
executor (`"execute_tool"`), not directly to the terminal finalization edge
(`"end_direct_response"`), so the orchestrator does not go to FINALIZE
directly on an unregistered tool name. -/
theorem C4_counterexample_unknown_tool_routes_to_executor :
    should_continue_to_tool_execution
        { blankState with
            llm_reasoner_decision := some "tool_call"
            tool_calls_generated := some [⟨"bogus_tool", [], some "t1"⟩] } = "execute_tool" ∧
    "execute_tool" ≠ "end_direct_response" ∧
    reasonerEdgeTarget "execute_tool" = some GNode.tool_executor ∧
    GNode.tool_executor ≠ GNode.«END» := by
  refine ⟨rfl, by decide, rfl, by decide⟩

/-- C4 (amended): a ToolRequest naming an unregistered tool is routed to the
tool executor (not to FINALIZE directly); the executor synthesizes an
error-content ToolResponse for it instead of raising, the run proceeds
through the synthesis node, and — on any turn whose user query is non-empty,
so that the synthesis step\x27s unguarded `[-1]` content read cannot raise —
the turn completes with a non-error final text rather than an exception. -/
theorem C4_amended_unknown_tool_nonfatal :
    ∀ (nm : String) (args : List (String × String)) (cid : Option String) (s : AgentState),
      nm ≠ "retrieve_knowledge_base" →
      nm ≠ "fetch_patient_data_log_summary" →
      s.llm_reasoner_decision = some "tool_call" →
      s.tool_calls_generated = some [⟨nm, args, cid⟩] →
      s.user_query ≠ "" →
      should_continue_to_tool_execution s = "execute_tool" ∧
      ((runFromChecked 10 GNode.tool_executor s).finalState?).map
          (fun s' => s'.executed_tool_responses_for_history) =
        some (some [⟨cid.getD "unknown_tool_call_id", nm,
          "Error: Tool \x27" ++ nm ++ "\x27 not found or simulated."⟩]) ∧
      ((runFromChecked 10 GNode.tool_executor s).finalState?).map
          (fun s' => s'.final_response.isSome) = some true := by
  intro nm args cid s hkb hpd hdec hcalls hq
  have hq2 : (tool_executor_node s).user_query ≠ "" := by
    rw [tool_executor_node_user_query]; exact hq
  have hrun : runFromChecked 10 GNode.tool_executor s =
      .final (rag_synthesis_node (tool_executor_node s)) := by
    have hstep := runChecked_toolexec_step 7 s
    rw [rag_synthesis_checked_agrees _ hq2] at hstep
    exact hstep
  have hexec : tool_executor_node s =
      { s with
          executed_tool_responses_for_history :=
            some [⟨cid.getD "unknown_tool_call_id", nm,
              "Error: Tool \x27" ++ nm ++ "\x27 not found or simulated."⟩]
          rag_context := s.rag_context
          patient_data_log_summary_for_drafting := s.patient_data_log_summary_for_drafting } := by
    simp [tool_executor_node, hcalls, optListTruthy, executeToolCalls, hkb, hpd]
  constructor
  · simp [should_continue_to_tool_execution, hdec, hcalls, optListTruthy]
  constructor
  · rw [hrun, hexec]
    simp [rag_synthesis_node, RunOutcome.finalState?]
  · rw [hrun]
    simp [rag_synthesis_node, RunOutcome.finalState?]

/-- C4 (witness): the amended theorem applied to the concrete unknown-tool
request `bogus_tool` with call id `t1` on a non-empty user query. -/
theorem C4_amended_unknown_tool_nonfatal_witness :
    should_continue_to_tool_execution
        { blankState with
            user_query := "please use the bogus tool"
            llm_reasoner_decision := some "tool_call"
            tool_calls_generated := some [⟨"bogus_tool", [], some "t1"⟩] } = "execute_tool" ∧
    ((runFromChecked 10 GNode.tool_executor
        { blankState with
            user_query := "please use the bogus tool"
            llm_reasoner_decision := some "tool_call"
            tool_calls_generated := some [⟨"bogus_tool", [], some "t1"⟩] }).finalState?).map
        (fun s' => s'.executed_tool_responses_for_history) =
      some (some [⟨"t1", "bogus_tool", "Error: Tool \x27bogus_tool\x27 not found or simulated."⟩]) ∧
    ((runFromChecked 10 GNode.tool_executor
        { blankState with
            user_query := "please use the bogus tool"
            llm_reasoner_decision := some "tool_call"
            tool_calls_generated := some [⟨"bogus_tool", [], some "t1"⟩] }).finalState?).map
        (fun s' => s'.final_response.isSome) = some true := by
  exact C4_amended_unknown_tool_nonfatal "bogus_tool" [] (some "t1") _
    (by decide) (by decide) rfl rfl (by decide)

/-- Helper for the correlation claim: the tool-executor loop produces
exactly one response per call, in input order, with each response\x27s `tool_call_id` equal to the Python
`call.get("id", "unknown_tool_call_id")` and each response naming its
call\x27s tool — for known tools, unknown tools, and error responses alike. -/
theorem executeToolCalls_correlation (calls : List ToolCall) (rag patient : Option String) :
    ((executeToolCalls calls rag patient).1.map (fun r => r.tool_call_id) =
      calls.map (fun c => c.id.getD "unknown_tool_call_id")) ∧
    ((executeToolCalls calls rag patient).1.map (fun r => r.name) =
      calls.map (fun c => c.name)) := by
  induction calls generalizing rag patient with
  | nil => simp [executeToolCalls]
  | cons c cs ih =>
    by_cases h1 : c.name = "retrieve_knowledge_base"
    · simp [executeToolCalls, h1, ih]
    · by_cases h2 : c.name = "fetch_patient_data_log_summary"
      · simp [executeToolCalls, h1, h2, ih]
      · simp [executeToolCalls, h1, h2, ih]

/-- C2: for every batch of N tool calls (each carrying an id, as the models
and the reasoner always supply one), the executor returns exactly N
responses, one per input call, in input order, with each response\x27s
`tool_call_id` equal to the corresponding call\x27s id — including for calls
naming an unknown tool, which receive an error-content response rather than
aborting the batch. -/
theorem C2_tool_correlation (calls : List ToolCall) (rag patient : Option String)
    (hids : ∀ c ∈ calls, c.id.isSome) :
    ((executeToolCalls calls rag patient).1.length = calls.length) ∧
    ((executeToolCalls calls rag patient).1.map (fun r => some r.tool_call_id) =
      calls.map (fun c => c.id)) ∧
    ((executeToolCalls calls rag patient).1.map (fun r => r.name) =
      calls.map (fun c => c.name)) := by
  obtain ⟨hid, hname⟩ := executeToolCalls_correlation calls rag patient
  refine ⟨?_, ?_, hname⟩
  · have := congrArg List.length hid
    simpa using this
  · have h1 : (executeToolCalls calls rag patient).1.map (fun r => some r.tool_call_id) =
        calls.map (fun c => some (c.id.getD "unknown_tool_call_id")) := by
      have := congrArg (List.map (fun t => some t)) hid
      simpa [List.map_map, Function.comp] using this
    rw [h1]
    apply List.map_congr_left
    intro c hc
    rcases Option.isSome_iff_exists.mp (hids c hc) with ⟨v, hv⟩
    simp [hv]

/-- C2 (witness): a concrete three-call batch — a knowledge-base retrieval,
an unknown tool, and a patient-data fetch — yields three responses with
matching ids and names in order. -/
theorem C2_tool_correlation_witness :
    ((executeToolCalls
        [⟨"retrieve_knowledge_base", [("query", "hypoglycemia")], some "t1"⟩,
         ⟨"made_up_tool", [], some "t2"⟩,
         ⟨"fetch_patient_data_log_summary", [("patient_id", "p9")], some "t3"⟩]
        none none).1.length = 3) ∧
    ((executeToolCalls
        [⟨"retrieve_knowledge_base", [("query", "hypoglycemia")], some "t1"⟩,
         ⟨"made_up_tool", [], some "t2"⟩,
         ⟨"fetch_patient_data_log_summary", [("patient_id", "p9")], some "t3"⟩]
        none none).1.map (fun r => some r.tool_call_id) =
      [some "t1", some "t2", some "t3"]) := by
  have h := C2_tool_correlation
    [⟨"retrieve_knowledge_base", [("query", "hypoglycemia")], some "t1"⟩,
     ⟨"made_up_tool", [], some "t2"⟩,
     ⟨"fetch_patient_data_log_summary", [("patient_id", "p9")], some "t3"⟩]
    none none (by decide)
  exact ⟨h.1, by rw [h.2.1]; rfl⟩

/-- C8: both drafting nodes invoke the model with `tools_schema_for_llm`
set to `None` (so drafting can never trigger further tool calls), always
produce a draft text that begins with "DRAFT", and present that draft text
as the node\x27s final response. -/
theorem C8_drafting_no_tools_and_draft_label :
    ∀ s : AgentState,
      (note_drafting_request s).tools_schema_for_llm = none ∧
      (handoff_report_request s).tools_schema_for_llm = none ∧
      (note_drafting_node s).draft_content.isSome = true ∧
      prefixMatches "DRAFT".toList
        (((note_drafting_node s).draft_content).getD "").toList = true ∧
      (note_drafting_node s).final_response = (note_drafting_node s).draft_content ∧
      (handoff_report_node s).draft_content.isSome = true ∧
      prefixMatches "DRAFT".toList
        (((handoff_report_node s).draft_content).getD "").toList = true ∧
      (handoff_report_node s).final_response = (handoff_report_node s).draft_content := by
  intro s
  exact ⟨rfl, rfl, rfl, rfl, rfl, rfl, rfl, rfl⟩

/-- C10: when the generated tool-call list is falsy (`None` or `[]`), the
tool executor resets `rag_context` and
`patient_data_log_summary_for_drafting` to `None`, discarding any prior
values; when at least one call is present, each field keeps its prior value
unless a correspondingly-named tool produces a new one. -/
theorem C10_tool_executor_frame_effect (s : AgentState) (calls : List ToolCall) :
    (optListTruthy s.tool_calls_generated = false →
      (tool_executor_node s).rag_context = none ∧
      (tool_executor_node s).patient_data_log_summary_for_drafting = none ∧
      (tool_executor_node s).executed_tool_responses_for_history = some []) ∧
    (s.tool_calls_generated = some calls → calls ≠ [] →
      ((∀ c ∈ calls, c.name ≠ "retrieve_knowledge_base") →
        (tool_executor_node s).rag_context = s.rag_context) ∧
      ((∀ c ∈ calls, c.name ≠ "fetch_patient_data_log_summary") →
        (tool_executor_node s).patient_data_log_summary_for_drafting =
          s.patient_data_log_summary_for_drafting)) := by
  constructor
  · intro hfalsy
    simp [tool_executor_node, hfalsy]
  · intro hcalls hne
    have htruthy : optListTruthy (some calls) = true := by
      simp [optListTruthy, hne]
    constructor
    · intro hnorag
      simp [tool_executor_node, hcalls, htruthy]
      exact executeToolCalls_rag_frame calls s.rag_context
        s.patient_data_log_summary_for_drafting hnorag
    · intro hnopat
      simp [tool_executor_node, hcalls, htruthy]
      exact executeToolCalls_patient_frame calls s.rag_context
        s.patient_data_log_summary_for_drafting hnopat

/-- C10 (witness): with prior context values present, a falsy call list
resets both fields to `None`, while a single unknown-tool call preserves
both prior values. -/
theorem C10_tool_executor_frame_effect_witness :
    ((tool_executor_node { blankState with
        rag_context := some "prior rag"
        patient_data_log_summary_for_drafting := some "prior patient" }).rag_context = none ∧
      (tool_executor_node { blankState with
        rag_context := some "prior rag"
        patient_data_log_summary_for_drafting := some "prior patient" }).patient_data_log_summary_for_drafting = none ∧
      (tool_executor_node { blankState with
        rag_context := some "prior rag"
        patient_data_log_summary_for_drafting := some "prior patient" }).executed_tool_responses_for_history = some []) ∧
    ((tool_executor_node { blankState with
        tool_calls_generated := some [⟨"made_up_tool", [], some "t1"⟩]
        rag_context := some "prior rag"
        patient_data_log_summary_for_drafting := some "prior patient" }).rag_context = some "prior rag" ∧
      (tool_executor_node { blankState with
        tool_calls_generated := some [⟨"made_up_tool", [], some "t1"⟩]
        rag_context := some "prior rag"
        patient_data_log_summary_for_drafting := some "prior patient" }).patient_data_log_summary_for_drafting = some "prior patient") := by
  constructor
  · exact (C10_tool_executor_frame_effect
      { blankState with
          rag_context := some "prior rag"
          patient_data_log_summary_for_drafting := some "prior patient" } []).1 (by decide)
  · have h := (C10_tool_executor_frame_effect
      { blankState with
          tool_calls_generated := some [⟨"made_up_tool", [], some "t1"⟩]
          rag_context := some "prior rag"
          patient_data_log_summary_for_drafting := some "prior patient" }
      [⟨"made_up_tool", [], some "t1"⟩]).2 rfl (by decide)
    exact ⟨h.1 (by decide), h.2 (by decide)⟩

/-- C7: for every input state — in particular whatever decision the
simulated reasoner takes, including a tool request — the exception-faithful
run of the compiled workflow terminates within the configured recursion
limit of 10 and never exhausts it: the graph has no `EXECUTE_TOOL → REASON`
back edge, so within four node steps every turn has either reached `END` or
aborted with the exception a node raised (the `[-1]` crash on an empty
query is an abort, not a hang).  Moreover every turn with a non-empty user
query completes cleanly at `END`. -/
theorem C7_terminates_within_recursion_limit :
    (∀ s : AgentState, runFromChecked 10 GNode.llm_reasoner s ≠ RunOutcome.outOfFuel) ∧
    (∀ s : AgentState, s.user_query ≠ "" →
      (runFromChecked 10 GNode.llm_reasoner s).finalState?.isSome = true) := by
  constructor
  · intro s
    exact runChecked_reasoner_not_oof 6 s
  · intro s hq
    exact runChecked_reasoner_final 6 s hq

/-- C7 (witness): the termination theorem at a concrete direct-response
turn — the run does not exhaust the recursion limit and completes cleanly —
and, for contrast, at the empty-query turn, where it still terminates
within the limit (by raising, not by hanging). -/
theorem C7_terminates_within_recursion_limit_witness :
    runFromChecked 10 GNode.llm_reasoner
        (initialAgentState "Thanks, that was helpful!" [] none) ≠ RunOutcome.outOfFuel ∧
    (runFromChecked 10 GNode.llm_reasoner
        (initialAgentState "Thanks, that was helpful!" [] none)).finalState?.isSome = true ∧
    runFromChecked 10 GNode.llm_reasoner (initialAgentState "" [] none) ≠
      RunOutcome.outOfFuel := by
  refine ⟨C7_terminates_within_recursion_limit.1 _,
    C7_terminates_within_recursion_limit.2 _ (by decide),
    C7_terminates_within_recursion_limit.1 _⟩

/-- C5 (counterexample): with the repository\x27s settings (no `RAG_TOP_K`
attribute) both claimed biconditionals fail — a backend that yields no
results still produces an error payload (never the explicit empty list),
and an empty query produces an error payload although the backend neither
failed nor was consulted. -/
theorem C5_counterexample_error_shape :
    retrieve_knowledge_base_tool settings_RAG_TOP_K true true (RagBackend.success [])
        "sepsis protocol" =
      [.errorPayload
        "Failed to retrieve information from knowledge base due to an internal error: \x27Settings\x27 object has no attribute \x27RAG_TOP_K\x27"] ∧
    retrieve_knowledge_base_tool settings_RAG_TOP_K true true (RagBackend.success [])
        "sepsis protocol" ≠ [] ∧
    retrieve_knowledge_base_tool settings_RAG_TOP_K true true
        (RagBackend.success [⟨"c1", "Hypoglycemia symptoms include sweating.", "guide.pdf", 2⟩]) "" =
      [.errorPayload "Query cannot be empty for knowledge base search."] := by
  refine ⟨rfl, by decide, rfl⟩

/-- C5 (amended): the tool returns an error payload for every query and the
explicit empty list for none — empty/whitespace queries short-circuit to
the empty-query payload, and every other query raises `AttributeError` on
the undefined `settings.RAG_TOP_K` inside the tool\x27s `try` and returns
the internal-error payload, so the retrieval backend is never consulted.
Only with a configured top-k would a non-empty query return the RAG
service\x27s chunk list (which is `[]` both on no results and on a swallowed
backend failure). -/
theorem C5_amended_error_payload_every_query (initialized embeddingOk : Bool)
    (backend : RagBackend) (q : String) (k : Nat) :
    (hasErrorPayload
        (retrieve_knowledge_base_tool settings_RAG_TOP_K initialized embeddingOk backend q) =
      true) ∧
    (retrieve_knowledge_base_tool settings_RAG_TOP_K initialized embeddingOk backend q ≠ []) ∧
    ((q = "" ∨ strTrim q = "") →
      retrieve_knowledge_base_tool settings_RAG_TOP_K initialized embeddingOk backend q =
        [.errorPayload "Query cannot be empty for knowledge base search."]) ∧
    (¬(q = "" ∨ strTrim q = "") →
      retrieve_knowledge_base_tool settings_RAG_TOP_K initialized embeddingOk backend q =
        [.errorPayload
          "Failed to retrieve information from knowledge base due to an internal error: \x27Settings\x27 object has no attribute \x27RAG_TOP_K\x27"]) ∧
    (¬(q = "" ∨ strTrim q = "") →
      retrieve_knowledge_base_tool (some k) initialized embeddingOk backend q =
        (retrieve_relevant_chunks initialized embeddingOk backend).map KBItem.chunk) := by
  by_cases hq : (q = "" ∨ strTrim q = "")
  · refine ⟨?_, ?_, fun _ => ?_, fun hn => absurd hq hn, fun hn => absurd hq hn⟩ <;>
      simp [retrieve_knowledge_base_tool, settings_RAG_TOP_K, hq, hasErrorPayload]
  · refine ⟨?_, ?_, fun hh => absurd hh hq, fun _ => ?_, fun _ => ?_⟩ <;>
      simp [retrieve_knowledge_base_tool, settings_RAG_TOP_K, hq, hasErrorPayload]

/-- C5 (witness): the amended theorem at the concrete query "sepsis" with a
backend holding no results — the tool returns the internal-error payload,
not the empty list. -/
theorem C5_amended_error_payload_every_query_witness :
    hasErrorPayload
        (retrieve_knowledge_base_tool settings_RAG_TOP_K true true (RagBackend.success [])
          "sepsis") = true ∧
    retrieve_knowledge_base_tool settings_RAG_TOP_K true true (RagBackend.success [])
        "sepsis" =
      [.errorPayload
        "Failed to retrieve information from knowledge base due to an internal error: \x27Settings\x27 object has no attribute \x27RAG_TOP_K\x27"] := by
  have h := C5_amended_error_payload_every_query true true (RagBackend.success []) "sepsis" 3
  exact ⟨h.1, h.2.2.2.1 (by decide)⟩

/-- C3 (code bug): `handle_chat_message` never produces a final text at
all — step 3 of the handler reads `request.mode`, a field `ChatRequest`
does not define, so pydantic raises `AttributeError` on every request
(after the USER save, before any model call or response), contradicting the
handler\x27s own docstring and its `ChatResponse` contract.  On the test
driver side, `run_agent_test` with an empty query aborts with the
reasoner\x27s `IndexError` instead of producing its selected response. -/
theorem C3_chat_crashes_before_any_response :
    (∀ (userSaveFails : Bool) (clock : Nat → Nat) (q : String),
      (handle_chat_message userSaveFails clock q).2 =
        .error "AttributeError: \x27ChatRequest\x27 object has no attribute \x27mode\x27") ∧
    runFromChecked 10 GNode.llm_reasoner (initialAgentState "" [] none) =
      RunOutcome.raised "IndexError: list index out of range" := by
  refine ⟨fun _ _ _ => rfl, by decide⟩

/-- C9: for every store, session, and limit, `load_session_history` uses at
most `limit` documents, all of that session and carrying the largest
timestamps of the session (nothing excluded is newer than anything
included), presents them in chronological (oldest-first) order even though
the store is queried newest-first, and returns exactly their message
conversion. -/
theorem C9_history_newest_oldest_first (store : List InteractionDoc) (sid : String)
    (limit : Nat) :
    ((sessionDocsUsed store sid limit).length ≤ limit) ∧
    (List.Pairwise (fun a b => a.timestamp ≤ b.timestamp) (sessionDocsUsed store sid limit)) ∧
    (∀ d ∈ sessionDocsUsed store sid limit, d.session_id = sid) ∧
    (∀ d ∈ sessionDocsUsed store sid limit,
      ∀ e ∈ ((store.filter (fun x => x.session_id = sid)).mergeSort newestFirst).drop limit,
        e.timestamp ≤ d.timestamp) ∧
    (load_session_history store sid limit =
      (sessionDocsUsed store sid limit).flatMap convertEntry) := by
  have hdocs := sessionDocsUsed_eq store sid limit
  have hp := session_query_sorted store sid
  refine ⟨?_, ?_, ?_, ?_, rfl⟩
  · rw [hdocs, List.length_reverse]
    exact List.length_take_le limit _
  · rw [hdocs, List.pairwise_reverse]
    have hpt := List.Pairwise.sublist (List.take_sublist limit _) hp
    exact hpt.imp (fun h => by simpa [newestFirst] using h)
  · intro d hd
    rw [hdocs, List.mem_reverse] at hd
    have hmem : d ∈ (store.filter (fun x => x.session_id = sid)).mergeSort newestFirst :=
      (List.take_sublist limit _).mem hd
    have hfil : d ∈ store.filter (fun x => x.session_id = sid) :=
      (List.mergeSort_perm _ newestFirst).mem_iff.mp hmem
    exact of_decide_eq_true (List.mem_filter.mp hfil).2
  · intro d hd e he
    rw [hdocs, List.mem_reverse] at hd
    have hsplit := hp
    rw [← List.take_append_drop limit
      ((store.filter (fun x => x.session_id = sid)).mergeSort newestFirst),
      List.pairwise_append] at hsplit
    have := hsplit.2.2 d hd e he
    simpa [newestFirst] using this

/-- C9 (witness): the history theorem at a concrete four-document store
with limit 2 — at most two documents are used and the returned messages are
exactly their conversion. -/
theorem C9_history_newest_oldest_first_witness :
    ((sessionDocsUsed
        [⟨"s1", "u1", .USER, "hello", none, none, 1⟩,
         ⟨"s1", "u1", .AGENT, "hi there", none, none, 2⟩,
         ⟨"s2", "u2", .USER, "other session", none, none, 3⟩,
         ⟨"s1", "u1", .USER, "how are you", none, none, 4⟩]
        "s1" 2).length ≤ 2) ∧
    (load_session_history
        [⟨"s1", "u1", .USER, "hello", none, none, 1⟩,
         ⟨"s1", "u1", .AGENT, "hi there", none, none, 2⟩,
         ⟨"s2", "u2", .USER, "other session", none, none, 3⟩,
         ⟨"s1", "u1", .USER, "how are you", none, none, 4⟩]
        "s1" 2 =
      (sessionDocsUsed
        [⟨"s1", "u1", .USER, "hello", none, none, 1⟩,
         ⟨"s1", "u1", .AGENT, "hi there", none, none, 2⟩,
         ⟨"s2", "u2", .USER, "other session", none, none, 3⟩,
         ⟨"s1", "u1", .USER, "how are you", none, none, 4⟩]
        "s1" 2).flatMap convertEntry) := by
  have h := C9_history_newest_oldest_first
    [⟨"s1", "u1", .USER, "hello", none, none, 1⟩,
     ⟨"s1", "u1", .AGENT, "hi there", none, none, 2⟩,
     ⟨"s2", "u2", .USER, "other session", none, none, 3⟩,
     ⟨"s1", "u1", .USER, "how are you", none, none, 4⟩]
    "s1" 2
  exact ⟨h.1, h.2.2.2.2⟩

end Noah
